import Mathlib

/-!
Verification of the time-window calculator and prediction request handler
of `UI_page/backend_api.py` (Forest_fire_prediction).

The Python source is shallowly embedded below.  Pure functions become Lean
functions; the Flask handler becomes a total function from the loaded-model
state, the synthetic input tensor and the parsed request body to an HTTP
response together with a count of backend invocations (effects as data).
Python `datetime` / `timedelta(hours=...)` arithmetic is embedded as explicit
Gregorian calendar arithmetic, and `strftime` as zero-padded string rendering.
-/

namespace ForestFire

/-- Embedding of a Python `datetime.datetime` value (no timezone, as in the
source, and no sub-second precision since the source only ever adds whole
hours to a whole-second base date). -/
structure DateTime where
  year : Nat
  month : Nat
  day : Nat
  hour : Nat
  minute : Nat
  second : Nat
deriving DecidableEq, Repr

/-- Gregorian leap-year rule, as implemented by Python's `datetime`. -/
def isLeapYear (y : Nat) : Bool :=
  (y % 4 == 0 && y % 100 != 0) || (y % 400 == 0)

/-- Number of days of month `m` in year `y` (Gregorian calendar). -/
def daysInMonth (y m : Nat) : Nat :=
  if m = 2 then (if isLeapYear y then 29 else 28)
  else if m = 4 ∨ m = 6 ∨ m = 9 ∨ m = 11 then 30
  else 31

/-- Advance a `DateTime` by one calendar day. -/
def nextDay (d : DateTime) : DateTime :=
  if d.day < daysInMonth d.year d.month then { d with day := d.day + 1 }
  else if d.month < 12 then { d with day := 1, month := d.month + 1 }
  else { d with day := 1, month := 1, year := d.year + 1 }

/-- Advance a `DateTime` by `n` calendar days. -/
def addDays : DateTime → Nat → DateTime
  | d, 0 => d
  | d, n + 1 => addDays (nextDay d) n

/-- Embedding of `d + timedelta(hours=h)` for a non-negative whole number of
hours, the only way the source uses `timedelta`. -/
def addHours (d : DateTime) (h : Nat) : DateTime :=
  let total := d.hour + h
  addDays { d with hour := total % 24 } (total / 24)

/-- Zero-padded two-digit rendering, as used by `strftime` fields
`%H`, `%M`, `%S`, `%m`, `%d`. -/
def pad2 (n : Nat) : String :=
  if n < 10 then "0" ++ toString n else toString n

/-- Zero-padded four-digit rendering of `%Y`. -/
def pad4 (n : Nat) : String :=
  if n < 10 then "000" ++ toString n
  else if n < 100 then "00" ++ toString n
  else if n < 1000 then "0" ++ toString n
  else toString n

/-- Embedding of `strftime('%H:%M:%S')`. -/
def strftimeHMS (d : DateTime) : String :=
  pad2 d.hour ++ ":" ++ pad2 d.minute ++ ":" ++ pad2 d.second

/-- Embedding of `strftime('%Y-%m-%d')`. -/
def strftimeYMD (d : DateTime) : String :=
  pad4 d.year ++ "-" ++ pad2 d.month ++ "-" ++ pad2 d.day

/-- Embedding of `strftime('%Y-%m-%d %H:%M:%S')`. -/
def strftimeFull (d : DateTime) : String :=
  strftimeYMD d ++ " " ++ strftimeHMS d

/-! Module-level constants of `backend_api.py`. -/

/-- `SEQ_LEN = 6` -/
def SEQ_LEN : Nat := 6

/-- `HORIZONS = 3` -/
def HORIZONS : Nat := 3

/-- `PATCH_H = 13` -/
def PATCH_H : Nat := 13

/-- `PATCH_W = 13` -/
def PATCH_W : Nat := 13

/-- `CHANNELS = 7` -/
def CHANNELS : Nat := 7

/-- `FIXED_SAMPLE_INDEX = 17` -/
def FIXED_SAMPLE_INDEX : Nat := 17

/-- `START_DATE = datetime(2015, 1, 1, 0, 0, 0)` -/
def START_DATE : DateTime := ⟨2015, 1, 1, 0, 0, 0⟩

/-- The output record of `get_sample_date_range`: the Python dict with six
string values (spec's `TimeWindow`). -/
structure TimeWindow where
  inputStart : String
  inputEnd : String
  predStart : String
  predEnd : String
  date : String
  full_start_date : String
deriving DecidableEq, Repr

/-! The four hour offsets computed inside `get_sample_date_range`,
lifted to top-level definitions so the offset arithmetic can be stated
directly.  `L` and `H` generalise the module constants `SEQ_LEN` and
`HORIZONS` read by the Python function; sample indices are non-negative
by the spec's precondition, so `Nat` arithmetic coincides with Python's
integer arithmetic on the whole stated domain (`L ≥ 1`, `H ≥ 1`). -/

/-- `input_start_hour_offset = sample_index` -/
def input_start_hour_offset (sample_index : Nat) : Nat :=
  sample_index

/-- `input_end_hour_offset = sample_index + SEQ_LEN - 1` -/
def input_end_hour_offset (L sample_index : Nat) : Nat :=
  sample_index + L - 1

/-- `pred_start_hour_offset = sample_index + SEQ_LEN` -/
def pred_start_hour_offset (L sample_index : Nat) : Nat :=
  sample_index + L

/-- `pred_end_hour_offset = pred_start_hour_offset + HORIZONS - 1` -/
def pred_end_hour_offset (L H sample_index : Nat) : Nat :=
  pred_start_hour_offset L sample_index + H - 1

/-- `get_sample_date_range(sample_index, start_date)` generalised over the
module constants it reads (`SEQ_LEN` as `L`, `HORIZONS` as `H`), mirroring
the spec's `SampleWindowConfig`.  Line for line from the source:
offsets, the four timestamps, then the six `strftime` renderings. -/
def get_sample_date_range_cfg (L H : Nat) (sample_index : Nat)
    (start_date : DateTime) : TimeWindow :=
  let input_start_time := addHours start_date (input_start_hour_offset sample_index)
  let input_end_time := addHours start_date (input_end_hour_offset L sample_index)
  let pred_start_time := addHours start_date (pred_start_hour_offset L sample_index)
  let pred_end_time := addHours start_date (pred_end_hour_offset L H sample_index)
  { inputStart := strftimeHMS input_start_time
    inputEnd := strftimeHMS input_end_time
    predStart := strftimeHMS pred_start_time
    predEnd := strftimeHMS pred_end_time
    date := strftimeYMD input_start_time
    full_start_date := strftimeFull input_start_time }

/-- `get_sample_date_range` exactly as in the source, reading the module
constants `SEQ_LEN` and `HORIZONS`. -/
def get_sample_date_range (sample_index : Nat) (start_date : DateTime) : TimeWindow :=
  get_sample_date_range_cfg SEQ_LEN HORIZONS sample_index start_date

/-! ### The `/api/predict` request handler

`predict` in `backend_api.py` reads the global `model` (possibly `None` when
loading failed at startup), parses `latMin` and `lonMin` from the request
JSON with Python's `float(...)`, computes `time_details` from the fixed
sample index, draws a synthetic random input tensor and calls
`model.predict` once, shaping exceptions into 400/500 JSON error bodies. -/

/-- A JSON value that can sit in a bounding-box field of the request body.
A field absent from the JSON object is `Option.none` at the `PredictRequest`
level; JSON `null` becomes Python `None` just like an absent field does
under `data.get(...)`. -/
inductive JVal where
  | num (x : Int)
  | str (s : String)
  | null
deriving DecidableEq, Repr

/-- The parsed JSON request body: the four bounding-box fields of
`{ latMin, lonMin, latMax, lonMax }`, each possibly absent. -/
structure PredictRequest where
  latMin : Option JVal
  lonMin : Option JVal
  latMax : Option JVal
  lonMax : Option JVal
deriving DecidableEq, Repr

/-! Whether a string is accepted by Python's `float(...)`: optional
surrounding whitespace, optional sign, then either `inf`/`infinity`/`nan`
(case-insensitive) or a decimal mantissa with optional exponent.  This
models the CPython runtime acceptance of string arguments (ASCII digits,
no underscore separators); the repository itself contains no parsing code
beyond the `float(...)` call.  The parser works on the character list so
it evaluates by kernel reduction. -/

/-- Split a character list at every occurrence of `sep`. -/
def splitChar (sep : Char) : List Char → List (List Char)
  | [] => [[]]
  | c :: cs =>
    match splitChar sep cs with
    | [] => if c = sep then [[], []] else [[c]]
    | h :: t => if c = sep then [] :: h :: t else (c :: h) :: t

/-- A non-empty run of decimal digits. -/
def digitsOnly (l : List Char) : Bool :=
  !l.isEmpty && l.all Char.isDigit

/-- Strip one optional leading sign. -/
def dropSign : List Char → List Char
  | '+' :: cs => cs
  | '-' :: cs => cs
  | l => l

/-- Lower-case the ASCII letters that can appear in a float literal. -/
def lowFloatChar (c : Char) : Char :=
  match c with
  | 'I' => 'i' | 'N' => 'n' | 'F' => 'f' | 'T' => 't'
  | 'Y' => 'y' | 'A' => 'a' | 'E' => 'e'
  | _ => c

/-- Digits with an optional decimal point, at least one digit present. -/
def mantissaOK (l : List Char) : Bool :=
  match splitChar '.' l with
  | [a] => digitsOnly a
  | [a, b] => a.all Char.isDigit && b.all Char.isDigit && (!a.isEmpty || !b.isEmpty)
  | _ => false

def strIsPyFloat (s : String) : Bool :=
  let l := ((s.data.dropWhile Char.isWhitespace).reverse.dropWhile
      Char.isWhitespace).reverse
  let l := dropSign (l.map lowFloatChar)
  if l = "inf".data || l = "infinity".data || l = "nan".data then true
  else
    match splitChar 'e' l with
    | [a] => mantissaOK a
    | [a, b] => mantissaOK a && digitsOnly (dropSign b)
    | _ => false

/-- `startsWithSeq pat l`: `pat` is an initial segment of `l`. -/
def startsWithSeq : List Char → List Char → Bool
  | [], _ => true
  | _ :: _, [] => false
  | p :: ps, c :: cs => p = c && startsWithSeq ps cs

/-- `containsSeq pat l`: `pat` occurs contiguously somewhere in `l`. -/
def containsSeq (pat : List Char) : List Char → Bool
  | [] => startsWithSeq pat []
  | c :: cs => startsWithSeq pat (c :: cs) || containsSeq pat cs

/-- The `TypeError` message CPython raises for `float(None)` (quoting
stripped): raised both when the field is absent (`data.get` returns `None`)
and when it is JSON `null`. -/
def floatNoneMsg : String :=
  "float() argument must be a string or a real number, not NoneType"

/-- Embedding of `float(data.get(field))`: succeeds on any JSON number and
on any string CPython's `float` accepts, raises `TypeError` on `None` and
`ValueError` (message quoting stripped) on other strings.  The parsed
numeric value is irrelevant downstream — the handler binds `lat_min` and
`lon_min` and never uses them — so success carries no payload. -/
def pythonFloat : Option JVal → Except String Unit
  | none => .error floatNoneMsg
  | some JVal.null => .error floatNoneMsg
  | some (JVal.num _) => .ok ()
  | some (JVal.str s) =>
    if strIsPyFloat s then .ok ()
    else .error ("could not convert string to float: " ++ s)

/-- The flattened first batch element `prediction_output[0].tolist()`:
a nested numeric sequence of shape `[HORIZONS, PATCH_H, PATCH_W]`.
Numeric contents are opaque to every claim, so entries are plain numbers. -/
abbrev PredictionData := List (List (List Int))

/-- Stand-in for the synthetic random input tensor
`np.random.rand(1, SEQ_LEN, PATCH_H, PATCH_W, CHANNELS)`: per the spec the
tensor contents are out of scope, and the handler only forwards the tensor
to the backend, so it is abstracted to an opaque seed passed in per request. -/
abbrev InputTensor := Nat

/-- The loaded inference backend: `model.predict` returns a batch of
outputs (outermost axis of size 1 in practice) or raises with a message. -/
structure Model where
  predictFn : InputTensor → Except String (List PredictionData)

/-- An HTTP response body: either `{ "error": msg }` or the success body
`{ "prediction_results": ..., "time_details": ... }`. -/
inductive HttpBody where
  | errorBody (msg : String)
  | successBody (prediction_results : PredictionData) (time_details : TimeWindow)
deriving DecidableEq, Repr

/-- An HTTP response: status code plus JSON body. -/
structure HttpResponse where
  status : Nat
  body : HttpBody
deriving DecidableEq, Repr

/-- A handler outcome: the response, plus how many times the inference
backend was invoked while producing it (effects as data). -/
structure HandlerResult where
  response : HttpResponse
  backendCalls : Nat
deriving DecidableEq, Repr

/-- The `predict` route handler, line for line from the source:

1. `if model is None` → 500 with a fixed message, touching nothing else;
2. `float(data.get('latMin'))` then `float(data.get('lonMin'))`; any
   exception → 400 `"Invalid input coordinates: {e}"`;
3. `time_details = get_sample_date_range(FIXED_SAMPLE_INDEX, START_DATE)`;
4. `model.predict(input_tensor)` and `prediction_output[0].tolist()`
   inside one `try`; any exception → 500 `"Model inference failed: {e}"`
   (indexing an empty batch raises the numpy out-of-bounds error);
5. otherwise 200 with the prediction list and the time details. -/
def predict (model : Option Model) (input_tensor : InputTensor)
    (req : PredictRequest) : HandlerResult :=
  match model with
  | none =>
    { response := ⟨500, HttpBody.errorBody "Model failed to load on server startup."⟩
      backendCalls := 0 }
  | some m =>
    match pythonFloat req.latMin with
    | .error e =>
      { response := ⟨400, HttpBody.errorBody ("Invalid input coordinates: " ++ e)⟩
        backendCalls := 0 }
    | .ok _ =>
      match pythonFloat req.lonMin with
      | .error e =>
        { response := ⟨400, HttpBody.errorBody ("Invalid input coordinates: " ++ e)⟩
          backendCalls := 0 }
      | .ok _ =>
        let time_details := get_sample_date_range FIXED_SAMPLE_INDEX START_DATE
        match m.predictFn input_tensor with
        | .error e =>
          { response := ⟨500, HttpBody.errorBody ("Model inference failed: " ++ e)⟩
            backendCalls := 1 }
        | .ok prediction_output =>
          match prediction_output with
          | [] =>
            { response := ⟨500, HttpBody.errorBody
                ("Model inference failed: " ++
                  "index 0 is out of bounds for axis 0 with size 0")⟩
              backendCalls := 1 }
          | prediction_list :: _ =>
            { response := ⟨200, HttpBody.successBody prediction_list time_details⟩
              backendCalls := 1 }

/-- The `time_details` record of a success response, when there is one. -/
def timeDetailsOf (r : HandlerResult) : Option TimeWindow :=
  match r.response.body with
  | HttpBody.successBody _ td => some td
  | HttpBody.errorBody _ => none

/-! ### Concrete helper objects used by witnesses and counterexamples. -/

/-- A backend that always answers with a one-element batch. -/
def okModel : Model := ⟨fun _ => Except.ok [[[[0]]]]⟩

/-- A backend that always raises. -/
def failModel : Model := ⟨fun _ => Except.error "boom"⟩

/-- A request with all four bounds numeric. -/
def validReq : PredictRequest :=
  ⟨some (JVal.num 1), some (JVal.num 2), some (JVal.num 3), some (JVal.num 4)⟩

/-- A second valid request with different bounds (and junk max bounds). -/
def validReq2 : PredictRequest :=
  ⟨some (JVal.num 100), some (JVal.num 200), none, some (JVal.str "x")⟩

/-- A request whose `latMin` field is absent. -/
def reqMissingLatMin : PredictRequest :=
  ⟨none, some (JVal.num 3), some (JVal.num 4), some (JVal.num 5)⟩

/-- A request whose `latMin` field is the non-numeric string `"abc"`. -/
def reqBadLatMin : PredictRequest :=
  ⟨some (JVal.str "abc"), some (JVal.num 3), some (JVal.num 4), some (JVal.num 5)⟩

/-- A request with numeric `latMin` whose `lonMin` is the non-numeric
string `"abc"`. -/
def reqBadLonMin : PredictRequest :=
  ⟨some (JVal.num 1), some (JVal.str "abc"), none, none⟩

/-! ### Claims -/

/-- C1: for every sample_index ≥ 0 and every configuration with L ≥ 1 and
H ≥ 1, the four hour offsets of `get_sample_date_range` satisfy
`input_end − input_start = L − 1`, `pred_end − pred_start = H − 1`,
`pred_start = input_end + 1`, and hence
`input_start ≤ input_end < pred_start ≤ pred_end`. -/
theorem offsets_arithmetic (sample_index L H : Nat) (hL : 1 ≤ L) (hH : 1 ≤ H) :
    input_end_hour_offset L sample_index - input_start_hour_offset sample_index
      = L - 1 ∧
    pred_end_hour_offset L H sample_index - pred_start_hour_offset L sample_index
      = H - 1 ∧
    pred_start_hour_offset L sample_index = input_end_hour_offset L sample_index + 1 ∧
    input_start_hour_offset sample_index ≤ input_end_hour_offset L sample_index ∧
    input_end_hour_offset L sample_index < pred_start_hour_offset L sample_index ∧
    pred_start_hour_offset L sample_index ≤ pred_end_hour_offset L H sample_index := by
  simp only [input_start_hour_offset, input_end_hour_offset,
    pred_start_hour_offset, pred_end_hour_offset]
  omega

/-- Witness for C1 at `sample_index = 17`, `L = SEQ_LEN`, `H = HORIZONS`. -/
theorem offsets_arithmetic_witness :
    input_end_hour_offset SEQ_LEN 17 - input_start_hour_offset 17 = SEQ_LEN - 1 ∧
    pred_end_hour_offset SEQ_LEN HORIZONS 17 - pred_start_hour_offset SEQ_LEN 17
      = HORIZONS - 1 ∧
    pred_start_hour_offset SEQ_LEN 17 = input_end_hour_offset SEQ_LEN 17 + 1 ∧
    input_start_hour_offset 17 ≤ input_end_hour_offset SEQ_LEN 17 ∧
    input_end_hour_offset SEQ_LEN 17 < pred_start_hour_offset SEQ_LEN 17 ∧
    pred_start_hour_offset SEQ_LEN 17 ≤ pred_end_hour_offset SEQ_LEN HORIZONS 17 :=
  offsets_arithmetic 17 SEQ_LEN HORIZONS (by decide) (by decide)

/-- C2 counterexample: with L = 6, H = 3 and base date 2015-01-01T00:00:00,
`get_sample_date_range` at sample_index = 17 returns `date = "2015-01-01"`
(the input window starts 2015-01-01 17:00:00 and does not cross midnight),
not the claimed `"2015-01-02"`; so the claim as stated is false. -/
theorem sample17_date_ne_claimed :
    (get_sample_date_range 17 START_DATE).date ≠ "2015-01-02" := by decide

/-- C2 amended: with base date 2015-01-01T00:00:00, L = 6 and H = 3,
sample_index = 17 yields exactly inputStart "17:00:00", inputEnd "22:00:00",
predStart "23:00:00", predEnd "01:00:00" (next day), date "2015-01-01" and
full_start_date "2015-01-01 17:00:00". -/
theorem sample17_time_window :
    get_sample_date_range 17 START_DATE =
      { inputStart := "17:00:00", inputEnd := "22:00:00",
        predStart := "23:00:00", predEnd := "01:00:00",
        date := "2015-01-01", full_start_date := "2015-01-01 17:00:00" } := by
  decide

/-- C3: when the model failed to initialize (`model is None`), every request
— whatever its bounding-box fields hold — gets the same fixed 500 error
response, with no bounds validation (the result does not depend on the
request at all) and no inference call (`backendCalls = 0`). -/
theorem predict_model_none (t : InputTensor) (req : PredictRequest) :
    predict none t req =
      { response := ⟨500, HttpBody.errorBody "Model failed to load on server startup."⟩
        backendCalls := 0 } := rfl

/-- C4: with the backend loaded, whenever `latMin` is absent (or JSON null,
which `data.get` also surfaces as Python `None`) or a string `float()`
rejects, the handler answers 400 and never invokes the inference backend. -/
theorem predict_latMin_invalid (m : Model) (t : InputTensor) (req : PredictRequest)
    (h : req.latMin = none ∨ req.latMin = some JVal.null ∨
         ∃ s, req.latMin = some (JVal.str s) ∧ strIsPyFloat s = false) :
    (predict (some m) t req).response.status = 400 ∧
    (predict (some m) t req).backendCalls = 0 := by
  rcases h with h | h | ⟨s, hs, hf⟩
  · simp [predict, h, pythonFloat]
  · simp [predict, h, pythonFloat]
  · simp [predict, hs, pythonFloat, hf]

/-- Witness for C4: a request with `latMin` absent, against a healthy
backend. -/
theorem predict_latMin_invalid_witness :
    (predict (some okModel) 0 reqMissingLatMin).response.status = 400 ∧
    (predict (some okModel) 0 reqMissingLatMin).backendCalls = 0 :=
  predict_latMin_invalid okModel 0 reqMissingLatMin (Or.inl rfl)

/-- C5 counterexample: for the request whose `latMin` is the non-numeric
string "abc", the 400 body is exactly
"Invalid input coordinates: could not convert string to float: abc",
a string in which neither field name `latMin` nor `lonMin` occurs
(`splitOn` finds no occurrence), so the response does not name the
malformed field. -/
theorem invalid_field_error_unnamed :
    (predict (some okModel) 0 reqBadLatMin).response =
      ⟨400, HttpBody.errorBody
        "Invalid input coordinates: could not convert string to float: abc"⟩ ∧
    containsSeq "latMin".data
      "Invalid input coordinates: could not convert string to float: abc".data
      = false ∧
    containsSeq "lonMin".data
      "Invalid input coordinates: could not convert string to float: abc".data
      = false := by
  refine ⟨by decide, by decide, by decide⟩

/-- C5 amended: for every request that fails bounds validation — `latMin`
failing `float()` with detail `e` (absent, null, or a rejected string), or
`latMin` parsing and `lonMin` failing with detail `e` — the 400 body is
exactly "Invalid input coordinates: " followed by the underlying exception
detail `e` (the `TypeError` message for a missing or null field, or
"could not convert string to float: " plus the offending value for a
rejected string).  The body is built from the offending value's exception
alone, identical in form whichever field failed, so it does not identify
which bounding-box field was malformed. -/
theorem invalid_field_error_detail (m : Model) (t : InputTensor)
    (req : PredictRequest) (e : String)
    (h : pythonFloat req.latMin = .error e ∨
         (pythonFloat req.latMin = .ok () ∧ pythonFloat req.lonMin = .error e)) :
    (predict (some m) t req).response =
      ⟨400, HttpBody.errorBody ("Invalid input coordinates: " ++ e)⟩ := by
  rcases h with h | ⟨h1, h2⟩
  · simp [predict, h]
  · simp [predict, h1, h2]

/-- Witness for C5's amended theorem, exercising both sides of the
disjunction: a request with `latMin` absent (the `TypeError` detail) and a
request with numeric `latMin` but a rejected `lonMin` string (the
`ValueError` detail). -/
theorem invalid_field_error_detail_witness :
    (predict (some okModel) 0 reqMissingLatMin).response =
      ⟨400, HttpBody.errorBody ("Invalid input coordinates: " ++ floatNoneMsg)⟩ ∧
    (predict (some okModel) 0 reqBadLonMin).response =
      ⟨400, HttpBody.errorBody
        ("Invalid input coordinates: " ++
          ("could not convert string to float: " ++ "abc"))⟩ :=
  ⟨invalid_field_error_detail okModel 0 reqMissingLatMin floatNoneMsg (Or.inl rfl),
   invalid_field_error_detail okModel 0 reqBadLonMin
     ("could not convert string to float: " ++ "abc") (Or.inr ⟨rfl, rfl⟩)⟩

/-- C6: for a valid request whose backend call raises with message `msg`,
the handler answers 500 with body "Model inference failed: msg" (so the
body contains the underlying message), invoking the backend exactly once.
The handler is a total function, so it also answers every subsequent
request: no crash. -/
theorem inference_failure_500 (m : Model) (t : InputTensor) (req : PredictRequest)
    (msg : String)
    (hlat : pythonFloat req.latMin = .ok ())
    (hlon : pythonFloat req.lonMin = .ok ())
    (hb : m.predictFn t = .error msg) :
    (predict (some m) t req).response =
      ⟨500, HttpBody.errorBody ("Model inference failed: " ++ msg)⟩ ∧
    (predict (some m) t req).backendCalls = 1 := by
  simp [predict, hlat, hlon, hb]

/-- Witness for C6: the always-raising backend on an all-numeric request. -/
theorem inference_failure_500_witness :
    (predict (some failModel) 0 validReq).response =
      ⟨500, HttpBody.errorBody ("Model inference failed: " ++ "boom")⟩ ∧
    (predict (some failModel) 0 validReq).backendCalls = 1 :=
  inference_failure_500 failModel 0 validReq "boom" rfl rfl rfl

/-- C7: `get_sample_date_range` is deterministic: two calls with equal
sample index and configuration (L, H, base date) produce TimeWindow records
whose six string fields are pairwise identical.  (Purity and absence of
side effects are reflected in the embedding of the source function as a
plain function of its arguments alone.) -/
theorem get_sample_date_range_deterministic
    (L1 H1 i1 : Nat) (d1 : DateTime) (L2 H2 i2 : Nat) (d2 : DateTime)
    (hL : L1 = L2) (hH : H1 = H2) (hi : i1 = i2) (hd : d1 = d2) :
    (get_sample_date_range_cfg L1 H1 i1 d1).inputStart
        = (get_sample_date_range_cfg L2 H2 i2 d2).inputStart ∧
    (get_sample_date_range_cfg L1 H1 i1 d1).inputEnd
        = (get_sample_date_range_cfg L2 H2 i2 d2).inputEnd ∧
    (get_sample_date_range_cfg L1 H1 i1 d1).predStart
        = (get_sample_date_range_cfg L2 H2 i2 d2).predStart ∧
    (get_sample_date_range_cfg L1 H1 i1 d1).predEnd
        = (get_sample_date_range_cfg L2 H2 i2 d2).predEnd ∧
    (get_sample_date_range_cfg L1 H1 i1 d1).date
        = (get_sample_date_range_cfg L2 H2 i2 d2).date ∧
    (get_sample_date_range_cfg L1 H1 i1 d1).full_start_date
        = (get_sample_date_range_cfg L2 H2 i2 d2).full_start_date := by
  subst hL hH hi hd
  exact ⟨rfl, rfl, rfl, rfl, rfl, rfl⟩

/-- Witness for C7 at the source's configuration and fixed index. -/
theorem get_sample_date_range_deterministic_witness :
    (get_sample_date_range_cfg 6 3 17 START_DATE).inputStart
        = (get_sample_date_range_cfg 6 3 17 START_DATE).inputStart ∧
    (get_sample_date_range_cfg 6 3 17 START_DATE).inputEnd
        = (get_sample_date_range_cfg 6 3 17 START_DATE).inputEnd ∧
    (get_sample_date_range_cfg 6 3 17 START_DATE).predStart
        = (get_sample_date_range_cfg 6 3 17 START_DATE).predStart ∧
    (get_sample_date_range_cfg 6 3 17 START_DATE).predEnd
        = (get_sample_date_range_cfg 6 3 17 START_DATE).predEnd ∧
    (get_sample_date_range_cfg 6 3 17 START_DATE).date
        = (get_sample_date_range_cfg 6 3 17 START_DATE).date ∧
    (get_sample_date_range_cfg 6 3 17 START_DATE).full_start_date
        = (get_sample_date_range_cfg 6 3 17 START_DATE).full_start_date :=
  get_sample_date_range_deterministic 6 3 17 START_DATE 6 3 17 START_DATE
    rfl rfl rfl rfl

/-- C8: the `time_details` of every success response equal
`get_sample_date_range FIXED_SAMPLE_INDEX START_DATE`, whatever the
request's geographic bounds and whatever tensor the backend saw; hence any
two valid requests with different bounds receive identical `time_details`
(noninterference from bounds to `time_details`). -/
theorem time_details_noninterference (m : Model) (t1 t2 : InputTensor)
    (req1 req2 : PredictRequest)
    (p1 : PredictionData) (rest1 : List PredictionData)
    (p2 : PredictionData) (rest2 : List PredictionData)
    (h1a : pythonFloat req1.latMin = .ok ())
    (h1b : pythonFloat req1.lonMin = .ok ())
    (h2a : pythonFloat req2.latMin = .ok ())
    (h2b : pythonFloat req2.lonMin = .ok ())
    (hb1 : m.predictFn t1 = .ok (p1 :: rest1))
    (hb2 : m.predictFn t2 = .ok (p2 :: rest2)) :
    timeDetailsOf (predict (some m) t1 req1)
        = some (get_sample_date_range FIXED_SAMPLE_INDEX START_DATE) ∧
    timeDetailsOf (predict (some m) t2 req2)
        = some (get_sample_date_range FIXED_SAMPLE_INDEX START_DATE) ∧
    timeDetailsOf (predict (some m) t1 req1)
        = timeDetailsOf (predict (some m) t2 req2) := by
  refine ⟨?_, ?_, ?_⟩ <;>
    simp [predict, timeDetailsOf, h1a, h1b, h2a, h2b, hb1, hb2]

/-- Witness for C8: two valid requests with different bounds against the
healthy backend. -/
theorem time_details_noninterference_witness :
    timeDetailsOf (predict (some okModel) 0 validReq)
        = some (get_sample_date_range FIXED_SAMPLE_INDEX START_DATE) ∧
    timeDetailsOf (predict (some okModel) 1 validReq2)
        = some (get_sample_date_range FIXED_SAMPLE_INDEX START_DATE) ∧
    timeDetailsOf (predict (some okModel) 0 validReq)
        = timeDetailsOf (predict (some okModel) 1 validReq2) :=
  time_details_noninterference okModel 0 1 validReq validReq2
    [[[0]]] [] [[[0]]] [] rfl rfl rfl rfl rfl rfl

/-- C9: validation reads only `latMin` and `lonMin`: with those two present
and numeric and a healthy backend, the handler reaches the success path
(status 200) for every value of `latMax` and `lonMax`, absent or
non-numeric included — a malformed max bound alone never causes a 400. -/
theorem validation_ignores_max_bounds (m : Model) (t : InputTensor)
    (vLatMin vLonMin latMax lonMax : Option JVal)
    (h1 : pythonFloat vLatMin = .ok ())
    (h2 : pythonFloat vLonMin = .ok ())
    (p : PredictionData) (rest : List PredictionData)
    (hb : m.predictFn t = .ok (p :: rest)) :
    (predict (some m) t ⟨vLatMin, vLonMin, latMax, lonMax⟩).response.status
      = 200 := by
  simp [predict, h1, h2, hb]

/-- Witness for C9: numeric `latMin`/`lonMin` with a non-numeric `latMax`
and an absent `lonMax` still reach the success path. -/
theorem validation_ignores_max_bounds_witness :
    (predict (some okModel) 0
        ⟨some (JVal.num 1), some (JVal.num 2), some (JVal.str "garbage"), none⟩
      ).response.status = 200 :=
  validation_ignores_max_bounds okModel 0
    (some (JVal.num 1)) (some (JVal.num 2)) (some (JVal.str "garbage")) none
    rfl rfl [[[0]]] [] rfl

/-- C10: at sample_index 17 (L = 6, H = 3, base 2015-01-01T00:00:00) the
prediction window crosses midnight: predStart renders "23:00:00" and
predEnd "01:00:00", a strictly earlier clock time of day, although the
underlying pred-end offset is strictly later and lands on the next calendar
day; and the record's only date-bearing fields (`date`, `full_start_date`)
render the input-window start, differing from the prediction window's end
date, so the rollover is not recorded in the output. -/
theorem pred_window_midnight_rollover :
    (get_sample_date_range 17 START_DATE).predStart = "23:00:00" ∧
    (get_sample_date_range 17 START_DATE).predEnd = "01:00:00" ∧
    pred_start_hour_offset SEQ_LEN 17 < pred_end_hour_offset SEQ_LEN HORIZONS 17 ∧
    (addHours START_DATE (pred_start_hour_offset SEQ_LEN 17)).day = 1 ∧
    (addHours START_DATE (pred_end_hour_offset SEQ_LEN HORIZONS 17)).day = 2 ∧
    (addHours START_DATE (pred_end_hour_offset SEQ_LEN HORIZONS 17)).hour
      < (addHours START_DATE (pred_start_hour_offset SEQ_LEN 17)).hour ∧
    (get_sample_date_range 17 START_DATE).date
      = strftimeYMD (addHours START_DATE (input_start_hour_offset 17)) ∧
    (get_sample_date_range 17 START_DATE).date
      ≠ strftimeYMD (addHours START_DATE (pred_end_hour_offset SEQ_LEN HORIZONS 17)) ∧
    (get_sample_date_range 17 START_DATE).full_start_date
      ≠ strftimeFull (addHours START_DATE (pred_end_hour_offset SEQ_LEN HORIZONS 17)) := by
  decide

end ForestFire
